import Mathlib

/-!
Verification of `password_generator.py`: a shallow embedding of the
password generator and its helpers, together with theorems checking the
specification's claims against the code.

Characters are Lean `Char`, Python strings are `List Char`.  The four
character-class constants and the policy constants are transcribed from
the module-level constants of the source.
-/

/-- UPPERCASE = string.ascii_uppercase (A-Z). -/
def UPPERCASE : List Char := "ABCDEFGHIJKLMNOPQRSTUVWXYZ".toList

/-- LOWERCASE = string.ascii_lowercase (a-z). -/
def LOWERCASE : List Char := "abcdefghijklmnopqrstuvwxyz".toList

/-- DIGITS = string.digits (0-9). -/
def DIGITS : List Char := "0123456789".toList

/-- PUNCTUATION = "!@$&()#^*" (limited special characters). -/
def PUNCTUATION : List Char := "!@$&()#^*".toList

/-- ALL_CHAR_CLASSES: the four named classes, in source order. -/
def ALL_CHAR_CLASSES : List (String × List Char) :=
  [("Uppercase", UPPERCASE),
   ("Lowercase", LOWERCASE),
   ("Digits", DIGITS),
   ("Special Chars", PUNCTUATION)]

/-- MIN_LENGTH = 20 (as a Python int). -/
def MIN_LENGTH : Int := 20

/-- MIN_CLASSES = 4. -/
def MIN_CLASSES : Nat := 4

/-- FORBIDDEN_FIRST_CHARS = "!()[]{}*.#$" (characters that cannot be first). -/
def FORBIDDEN_FIRST_CHARS : List Char := "!()[]\x7b\x7d*.#$".toList

/-- Result of `check_password_classes`: the dict with the four boolean values,
one per character class, in source order. -/
structure PasswordClasses where
  uppercase : Bool
  lowercase : Bool
  digits : Bool
  specialChars : Bool
deriving DecidableEq, Repr

/-- check_password_classes(password): which character classes are present. -/
def check_password_classes (password : List Char) : PasswordClasses :=
  { uppercase := password.any (fun c => decide (c ∈ UPPERCASE))
  , lowercase := password.any (fun c => decide (c ∈ LOWERCASE))
  , digits := password.any (fun c => decide (c ∈ DIGITS))
  , specialChars := password.any (fun c => decide (c ∈ PUNCTUATION)) }

/-- count_classes(password) = sum(check_password_classes(password).values()),
with Python booleans summed as 0/1. -/
def count_classes (password : List Char) : Nat :=
  (check_password_classes password).uppercase.toNat +
  (check_password_classes password).lowercase.toNat +
  (check_password_classes password).digits.toNat +
  (check_password_classes password).specialChars.toNat

/-- get_char_class(char): the class name of a character, or "Unknown". -/
def get_char_class (char : Char) : String :=
  if char ∈ UPPERCASE then "Uppercase"
  else if char ∈ LOWERCASE then "Lowercase"
  else if char ∈ DIGITS then "Digits"
  else if char ∈ PUNCTUATION then "Special Chars"
  else "Unknown"

/-- The for-loop of has_consecutive_class_run over password[1:], carrying
current_class and consecutive_count. -/
def runLoop (current_class : String) (consecutive_count : Nat)
    (max_consecutive : Nat) : List Char → Bool
  | [] => false
  | char :: rest =>
    let char_class := get_char_class char
    if char_class = current_class then
      if consecutive_count + 1 > max_consecutive then true
      else runLoop current_class (consecutive_count + 1) max_consecutive rest
    else runLoop char_class 1 max_consecutive rest

/-- has_consecutive_class_run(password, max_consecutive): true when some run
of same-class characters exceeds max_consecutive.  The Python default for
max_consecutive is 3; callers in this file pass it explicitly.  The inner
empty case is unreachable (the length guard already returned False). -/
def has_consecutive_class_run (password : List Char) (max_consecutive : Nat) : Bool :=
  if password.length ≤ max_consecutive then
    false
  else
    match password with
    | [] => false
    | char :: rest => runLoop (get_char_class char) 1 max_consecutive rest

/-- The combined pool all_chars = UPPERCASE + LOWERCASE + DIGITS + PUNCTUATION
built at the top of generate_password. -/
def all_chars : List Char := UPPERCASE ++ LOWERCASE ++ DIGITS ++ PUNCTUATION

/-- Clamping at the top of generate_password:
if length < MIN_LENGTH: length = MIN_LENGTH. -/
def clampLength (length : Int) : Int :=
  if length < MIN_LENGTH then MIN_LENGTH else length

/-- The validation guard of the generation loop, in source order:
count_classes ≥ MIN_CLASSES, len ≥ MIN_LENGTH, first character allowed,
no excessive consecutive class run.  `List.headI` stands for password[0]
(every candidate reaching the guard is nonempty). -/
def passwordValid (password : List Char) : Bool :=
  decide (MIN_CLASSES ≤ count_classes password) &&
  decide (MIN_LENGTH ≤ (password.length : Int)) &&
  !(decide (password.headI ∈ FORBIDDEN_FIRST_CHARS)) &&
  !(has_consecutive_class_run password 3)

/-- One pass of the generation loop's random draws:
`classPerm` is secrets.SystemRandom().sample(ALL_CHAR_CLASSES, MIN_CLASSES)
(sampling 4 from the 4-element list, i.e. a permutation of it);
`classPick` are the secrets.choice draws, one from each selected class;
`fill` are the remaining_length draws from the full pool;
`shuffled` is the buffer after secrets.SystemRandom().shuffle. -/
structure GenSample where
  classPerm : List (String × List Char)
  classPick : List Char
  fill : List Char
  shuffled : List Char

/-- What the constructions of generate_password guarantee about one pass of
the loop for a requested (already clamp-checked) length. -/
def SampleValid (length : Int) (s : GenSample) : Prop :=
  s.classPerm.Perm ALL_CHAR_CLASSES ∧
  List.Forall₂ (fun c cls => c ∈ cls.2) s.classPick s.classPerm ∧
  s.fill.length = (clampLength length - (s.classPick.length : Int)).toNat ∧
  (∀ c ∈ s.fill, c ∈ all_chars) ∧
  s.shuffled.Perm (s.classPick ++ s.fill)

/-- generate_password(length) returns p: some pass of the rejection-sampling
loop produced p and p passed the validation guard. -/
def GeneratesPassword (length : Int) (p : List Char) : Prop :=
  ∃ s : GenSample, SampleValid length s ∧ p = s.shuffled ∧ passwordValid p = true

/-- A concrete policy-compliant password used to instantiate theorems about
generate_password: one character of each class followed by alternating
upper/lower filler, 20 characters in total. -/
def examplePassword : List Char := "Aa0!BbBbBbBbBbBbBbBb".toList

/-- The concrete loop pass that produces examplePassword: the identity
permutation of the classes, picks 'A', 'a', '0', '!', sixteen filler
characters, and the identity shuffle. -/
def exampleSample : GenSample :=
  { classPerm := ALL_CHAR_CLASSES
  , classPick := "Aa0!".toList
  , fill := "BbBbBbBbBbBbBbBb".toList
  , shuffled := examplePassword }

/-- Outcome of one subprocess.run call in copy_to_clipboard: it either
succeeds, raises CalledProcessError (check=True and nonzero exit), or raises
FileNotFoundError (the mechanism is missing). -/
inductive SubprocessResult where
  | success
  | calledProcessError
  | fileNotFoundError
deriving DecidableEq, Repr

/-- The environment copy_to_clipboard runs in: the platform.system() string
and the outcome each clipboard mechanism would have if invoked. -/
structure ClipboardEnv where
  system : String
  pbcopy : SubprocessResult
  xclip : SubprocessResult
  xsel : SubprocessResult
  clip : SubprocessResult

/-- A subprocess.run call as a value of the Except monad: ok on success,
error carrying the raised exception kind otherwise. -/
def runMech : SubprocessResult → Except SubprocessResult Unit
  | .success => .ok ()
  | e => .error e

/-- The body of the try-block of copy_to_clipboard: dispatch on the platform
string; on Linux try xclip and, only on FileNotFoundError, fall back to xsel;
unsupported platforms return False directly; reaching the end of the
dispatch returns True. -/
def clipboardBody (env : ClipboardEnv) : Except SubprocessResult Bool :=
  if env.system = "Darwin" then
    (runMech env.pbcopy).map (fun _ => true)
  else if env.system = "Linux" then
    (match runMech env.xclip with
     | .error .fileNotFoundError => runMech env.xsel
     | r => r).map (fun _ => true)
  else if env.system = "Windows" then
    (runMech env.clip).map (fun _ => true)
  else
    .ok false

/-- copy_to_clipboard: the outer except clause catches both
CalledProcessError and FileNotFoundError and returns False. -/
def copy_to_clipboard (env : ClipboardEnv) : Bool :=
  match clipboardBody env with
  | .ok b => b
  | .error _ => false

/-- Claim C5, as stated, is false: the forbidden-first-character set is not a
superset of the Punctuation class.  Concretely the punctuation character '@'
is not in FORBIDDEN_FIRST_CHARS. -/
theorem punctuation_not_subset_forbidden :
    ¬ (∀ c ∈ PUNCTUATION, c ∈ FORBIDDEN_FIRST_CHARS) := by
  decide

/-- Claim C5 (amended): the forbidden-first-character set contains six of the
nine Punctuation characters, but the punctuation characters '@', '&' and '^'
lie outside it, so it is not a superset of the Punctuation class. -/
theorem punctuation_forbidden_overlap :
    (∀ c ∈ PUNCTUATION, c ∉ ['@', '&', '^'] → c ∈ FORBIDDEN_FIRST_CHARS) ∧
    ('@' ∈ PUNCTUATION ∧ '@' ∉ FORBIDDEN_FIRST_CHARS) ∧
    ('&' ∈ PUNCTUATION ∧ '&' ∉ FORBIDDEN_FIRST_CHARS) ∧
    ('^' ∈ PUNCTUATION ∧ '^' ∉ FORBIDDEN_FIRST_CHARS) := by
  decide

/-- Witness for the amended C5 theorem at the concrete character '!'. -/
theorem punctuation_forbidden_overlap_witness :
    '!' ∈ FORBIDDEN_FIRST_CHARS :=
  punctuation_forbidden_overlap.1 '!' (by decide) (by decide)

/-- Claim C6: get_char_class is total: every character of the combined pool
maps to one of the four class names and belongs to exactly one of the four
(disjoint) classes, and every character outside the pool maps to "Unknown". -/
theorem get_char_class_total :
    (∀ c ∈ all_chars,
      (get_char_class c = "Uppercase" ∨ get_char_class c = "Lowercase" ∨
       get_char_class c = "Digits" ∨ get_char_class c = "Special Chars") ∧
      (decide (c ∈ UPPERCASE)).toNat + (decide (c ∈ LOWERCASE)).toNat +
        (decide (c ∈ DIGITS)).toNat + (decide (c ∈ PUNCTUATION)).toNat = 1) ∧
    (∀ c, c ∉ all_chars → get_char_class c = "Unknown") := by
  constructor
  · decide
  · intro c hc
    simp only [all_chars, List.mem_append, not_or] at hc
    obtain ⟨⟨⟨hU, hL⟩, hD⟩, hP⟩ := hc
    unfold get_char_class
    simp [hU, hL, hD, hP]

/-- Witness for C6 at the concrete characters 'A' (in the pool) and
' ' (outside the pool). -/
theorem get_char_class_total_witness :
    (get_char_class 'A' = "Uppercase" ∨ get_char_class 'A' = "Lowercase" ∨
     get_char_class 'A' = "Digits" ∨ get_char_class 'A' = "Special Chars") ∧
    get_char_class ' ' = "Unknown" :=
  ⟨(get_char_class_total.1 'A' (by decide)).1, get_char_class_total.2 ' ' (by decide)⟩

/-- Claim C7: on a password no longer than max_consecutive,
has_consecutive_class_run is false regardless of content. -/
theorem has_consecutive_class_run_short (password : List Char)
    (max_consecutive : Nat) (h : password.length ≤ max_consecutive) :
    has_consecutive_class_run password max_consecutive = false := by
  unfold has_consecutive_class_run
  simp [h]

/-- Witness for C7 at the concrete string "AA0" with the default bound 3. -/
theorem has_consecutive_class_run_short_witness :
    has_consecutive_class_run "AA0".toList 3 = false :=
  has_consecutive_class_run_short "AA0".toList 3 (by decide)

/-- Each of the four booleans contributes at most one, so at most four
classes can ever be counted. -/
theorem count_classes_le_four (password : List Char) : count_classes password ≤ 4 := by
  unfold count_classes
  have h1 := Bool.toNat_le (check_password_classes password).uppercase
  have h2 := Bool.toNat_le (check_password_classes password).lowercase
  have h3 := Bool.toNat_le (check_password_classes password).digits
  have h4 := Bool.toNat_le (check_password_classes password).specialChars
  omega

/-- A member of the left list of a Forall₂ relation is related to some
member of the right list. -/
theorem forall₂_mem_left {l₁ : List Char} {l₂ : List (String × List Char)}
    (h : List.Forall₂ (fun c cls => c ∈ cls.2) l₁ l₂) :
    ∀ c ∈ l₁, ∃ cls ∈ l₂, c ∈ cls.2 := by
  induction h with
  | nil => intro c hc; cases hc
  | cons hrel htail ih =>
    intro c hc
    rcases List.mem_cons.mp hc with rfl | hc
    · exact ⟨_, List.mem_cons_self _ _, hrel⟩
    · rcases ih c hc with ⟨cls, hcls, hmem⟩
      exact ⟨cls, List.mem_cons_of_mem _ hcls, hmem⟩

/-- The character set of each named class is contained in the combined pool. -/
theorem class_chars_subset (cls : String × List Char)
    (h : cls ∈ ALL_CHAR_CLASSES) : ∀ c ∈ cls.2, c ∈ all_chars := by
  simp only [ALL_CHAR_CLASSES, List.mem_cons, List.not_mem_nil, or_false] at h
  rcases h with rfl | rfl | rfl | rfl <;>
    intro c hc <;> simp [all_chars, List.mem_append] <;> tauto

/-- Clamping the requested length is taking the maximum with the minimum. -/
theorem clampLength_eq_max (length : Int) :
    clampLength length = max length MIN_LENGTH := by
  unfold clampLength
  rcases max_cases length MIN_LENGTH with ⟨h1, h2⟩ | ⟨h1, h2⟩ <;>
    rw [h1] <;> split <;> omega

/-- The clamped length is at least the minimum. -/
theorem clampLength_ge (length : Int) : MIN_LENGTH ≤ clampLength length := by
  unfold clampLength
  split <;> omega

/-- The concrete pass exampleSample satisfies every construction constraint
for the below-minimum request 5. -/
theorem exampleSample_valid : SampleValid 5 exampleSample := by
  refine ⟨List.Perm.refl _, ?_, by decide, by decide, ?_⟩
  · exact .cons (by decide) (.cons (by decide) (.cons (by decide)
      (.cons (by decide) .nil)))
  · have h : exampleSample.shuffled = exampleSample.classPick ++ exampleSample.fill := by
      decide
    exact h ▸ List.Perm.refl _

/-- generate_password(5) can return examplePassword. -/
theorem example_generates : GeneratesPassword 5 examplePassword :=
  ⟨exampleSample, exampleSample_valid, rfl, by decide⟩

/-- Claim C1: generate_password(length) returns a string of length exactly
max(length, 20): the requested length when it is at least 20, and 20 when the
request is below the minimum (clamped, no error raised). -/
theorem generate_password_length (length : Int) (p : List Char)
    (h : GeneratesPassword length p) :
    (p.length : Int) = max length 20 ∧
    (20 ≤ length → (p.length : Int) = length) ∧
    (length < 20 → p.length = 20) := by
  obtain ⟨s, ⟨hperm, hpick, hfill, _, hshuf⟩, rfl, _⟩ := h
  have hlen4 : s.classPick.length = 4 := by
    have h1 := hpick.length_eq
    have h2 := hperm.length_eq
    simp only [ALL_CHAR_CLASSES, List.length_cons, List.length_nil] at h2
    omega
  have hl : s.shuffled.length = s.classPick.length + s.fill.length := by
    rw [hshuf.length_eq, List.length_append]
  have hclamp := clampLength_ge length
  have hmax := clampLength_eq_max length
  simp only [MIN_LENGTH] at hclamp hmax
  rw [hl, hlen4, hfill, hlen4]
  refine ⟨?_, ?_, ?_⟩ <;> [skip; intro hge; intro hlt] <;>
    rcases max_cases length (20 : Int) with ⟨h1, h2⟩ | ⟨h1, h2⟩ <;> omega

/-- Witness for C1: the concrete pass below yields a 20-character password
for the below-minimum request 5. -/
theorem generate_password_length_witness :
    ((examplePassword.length : Int) = max 5 20) :=
  (generate_password_length 5 examplePassword example_generates).1

/-- The structure of a passed validation guard, unfolded into propositions. -/
theorem passwordValid_spec (password : List Char)
    (h : passwordValid password = true) :
    (MIN_CLASSES ≤ count_classes password ∧
      MIN_LENGTH ≤ (password.length : Int) ∧
      password.headI ∉ FORBIDDEN_FIRST_CHARS) ∧
    has_consecutive_class_run password 3 = false := by
  simp only [passwordValid, Bool.and_eq_true, Bool.not_eq_true',
    decide_eq_true_eq, decide_eq_false_iff_not] at h
  exact ⟨⟨h.1.1.1, h.1.1.2, h.1.2⟩, h.2⟩

/-- Claim C2: every generated password contains at least one character from
each of the four classes, i.e. count_classes of the result equals 4. -/
theorem generate_password_all_classes (length : Int) (p : List Char)
    (h : GeneratesPassword length p) : count_classes p = 4 := by
  obtain ⟨s, _, rfl, hvalid⟩ := h
  have hge := (passwordValid_spec _ hvalid).1.1
  have hle := count_classes_le_four s.shuffled
  simp only [MIN_CLASSES] at hge
  omega

/-- Witness for C2 at the concrete generated password. -/
theorem generate_password_all_classes_witness :
    count_classes examplePassword = 4 :=
  generate_password_all_classes 5 examplePassword example_generates

/-- Claim C3: the first character of every generated password is not a member
of the forbidden-first-character set. -/
theorem generate_password_first_char (length : Int) (p : List Char)
    (h : GeneratesPassword length p) :
    p.headI ∉ FORBIDDEN_FIRST_CHARS := by
  obtain ⟨s, _, rfl, hvalid⟩ := h
  exact (passwordValid_spec _ hvalid).1.2.2

/-- Witness for C3 at the concrete generated password. -/
theorem generate_password_first_char_witness :
    examplePassword.headI ∉ FORBIDDEN_FIRST_CHARS :=
  generate_password_first_char 5 examplePassword example_generates

/-- Claim C4: no generated password has a run of 4 or more consecutive
characters of the same class: has_consecutive_class_run with bound 3 is
false on the result. -/
theorem generate_password_no_excess_run (length : Int) (p : List Char)
    (h : GeneratesPassword length p) :
    has_consecutive_class_run p 3 = false := by
  obtain ⟨s, _, rfl, hvalid⟩ := h
  exact (passwordValid_spec _ hvalid).2

/-- Witness for C4 at the concrete generated password. -/
theorem generate_password_no_excess_run_witness :
    has_consecutive_class_run examplePassword 3 = false :=
  generate_password_no_excess_run 5 examplePassword example_generates

/-- Every character of the combined pool has a known class. -/
theorem pool_class_known : ∀ c ∈ all_chars, get_char_class c ≠ "Unknown" := by
  decide

/-- Claim C9: every character of every generated password comes from the
combined pool, so get_char_class never answers "Unknown" on it. -/
theorem generate_password_chars_in_pool (length : Int) (p : List Char)
    (h : GeneratesPassword length p) :
    ∀ c ∈ p, c ∈ all_chars ∧ get_char_class c ≠ "Unknown" := by
  obtain ⟨s, ⟨hperm, hpick, _, hfillmem, hshuf⟩, rfl, _⟩ := h
  intro c hc
  have hc2 : c ∈ s.classPick ++ s.fill := hshuf.mem_iff.mp hc
  have hpool : c ∈ all_chars := by
    rcases List.mem_append.mp hc2 with hcp | hcf
    · rcases forall₂_mem_left hpick c hcp with ⟨cls, hcls, hmem⟩
      exact class_chars_subset cls (hperm.mem_iff.mp hcls) c hmem
    · exact hfillmem c hcf
  exact ⟨hpool, pool_class_known c hpool⟩

/-- Witness for C9 at the concrete generated password and its first
character. -/
theorem generate_password_chars_in_pool_witness :
    'A' ∈ all_chars ∧ get_char_class 'A' ≠ "Unknown" :=
  generate_password_chars_in_pool 5 examplePassword example_generates 'A'
    (by decide)

/-- Claim C8: copy_to_clipboard never propagates a clipboard failure: on an
unsupported platform it returns false, and it returns true exactly when a
platform mechanism succeeds (on Linux: xclip succeeding, or xclip missing
and the xsel fallback succeeding); every other outcome is caught and
returned as false. -/
theorem copy_to_clipboard_spec (env : ClipboardEnv) :
    (env.system ≠ "Darwin" → env.system ≠ "Linux" → env.system ≠ "Windows" →
      copy_to_clipboard env = false) ∧
    (copy_to_clipboard env = true ↔
      ((env.system = "Darwin" ∧ env.pbcopy = .success) ∨
       (env.system = "Linux" ∧ (env.xclip = .success ∨
         (env.xclip = .fileNotFoundError ∧ env.xsel = .success))) ∨
       (env.system = "Windows" ∧ env.clip = .success))) := by
  obtain ⟨sys, pb, xc, xs, cl⟩ := env
  by_cases hD : sys = "Darwin"
  · subst hD
    cases pb <;> cases xc <;> cases xs <;> cases cl <;> decide
  · by_cases hL : sys = "Linux"
    · subst hL
      cases pb <;> cases xc <;> cases xs <;> cases cl <;> decide
    · by_cases hW : sys = "Windows"
      · subst hW
        cases pb <;> cases xc <;> cases xs <;> cases cl <;> decide
      · constructor
        · intro _ _ _
          simp [copy_to_clipboard, clipboardBody, hD, hL, hW]
        · simp [copy_to_clipboard, clipboardBody, hD, hL, hW]

/-- Witness for C8: on the unsupported platform string "Solaris" the call
returns false even though every mechanism would succeed. -/
theorem copy_to_clipboard_spec_witness :
    copy_to_clipboard
      { system := "Solaris", pbcopy := .success, xclip := .success
      , xsel := .success, clip := .success } = false :=
  (copy_to_clipboard_spec _).1 (by decide) (by decide) (by decide)

/-- Lowercase letters are not uppercase letters. -/
theorem lower_not_upper : ∀ c ∈ LOWERCASE, c ∉ UPPERCASE := by decide

/-- Digits are not uppercase letters. -/
theorem digit_not_upper : ∀ c ∈ DIGITS, c ∉ UPPERCASE := by decide

/-- Digits are not lowercase letters. -/
theorem digit_not_lower : ∀ c ∈ DIGITS, c ∉ LOWERCASE := by decide

/-- Punctuation characters are not uppercase letters. -/
theorem punct_not_upper : ∀ c ∈ PUNCTUATION, c ∉ UPPERCASE := by decide

/-- Punctuation characters are not lowercase letters. -/
theorem punct_not_lower : ∀ c ∈ PUNCTUATION, c ∉ LOWERCASE := by decide

/-- Punctuation characters are not digits. -/
theorem punct_not_digit : ∀ c ∈ PUNCTUATION, c ∉ DIGITS := by decide

/-- Because the classes are disjoint, get_char_class answers a class name
exactly on the members of that class. -/
theorem get_char_class_eq_iff (c : Char) :
    (get_char_class c = "Uppercase" ↔ c ∈ UPPERCASE) ∧
    (get_char_class c = "Lowercase" ↔ c ∈ LOWERCASE) ∧
    (get_char_class c = "Digits" ↔ c ∈ DIGITS) ∧
    (get_char_class c = "Special Chars" ↔ c ∈ PUNCTUATION) := by
  by_cases h1 : c ∈ UPPERCASE <;> by_cases h2 : c ∈ LOWERCASE <;>
    by_cases h3 : c ∈ DIGITS <;> by_cases h4 : c ∈ PUNCTUATION
  all_goals first
    | exact absurd h1 (lower_not_upper c h2)
    | exact absurd h1 (digit_not_upper c h3)
    | exact absurd h1 (punct_not_upper c h4)
    | exact absurd h2 (digit_not_lower c h3)
    | exact absurd h2 (punct_not_lower c h4)
    | exact absurd h3 (punct_not_digit c h4)
    | simp [get_char_class, h1, h2, h3, h4]

/-- Every answer of get_char_class is one of the five possible strings. -/
theorem get_char_class_range (c : Char) :
    get_char_class c = "Uppercase" ∨ get_char_class c = "Lowercase" ∨
    get_char_class c = "Digits" ∨ get_char_class c = "Special Chars" ∨
    get_char_class c = "Unknown" := by
  unfold get_char_class
  split <;> [skip; split] <;> [skip; skip; split] <;> [skip; skip; skip; split] <;> simp

/-- The presence booleans of check_password_classes say exactly which class
names occur among the classifications of the password's characters. -/
theorem check_classes_iff (p : List Char) :
    ((check_password_classes p).uppercase = true ↔
      "Uppercase" ∈ p.map get_char_class) ∧
    ((check_password_classes p).lowercase = true ↔
      "Lowercase" ∈ p.map get_char_class) ∧
    ((check_password_classes p).digits = true ↔
      "Digits" ∈ p.map get_char_class) ∧
    ((check_password_classes p).specialChars = true ↔
      "Special Chars" ∈ p.map get_char_class) := by
  refine ⟨?_, ?_, ?_, ?_⟩ <;>
    simp only [check_password_classes, List.any_eq_true, decide_eq_true_eq,
      List.mem_map] <;>
    constructor
  · rintro ⟨c, hc, hm⟩
    exact ⟨c, hc, (get_char_class_eq_iff c).1.mpr hm⟩
  · rintro ⟨c, hc, he⟩
    exact ⟨c, hc, (get_char_class_eq_iff c).1.mp he⟩
  · rintro ⟨c, hc, hm⟩
    exact ⟨c, hc, (get_char_class_eq_iff c).2.1.mpr hm⟩
  · rintro ⟨c, hc, he⟩
    exact ⟨c, hc, (get_char_class_eq_iff c).2.1.mp he⟩
  · rintro ⟨c, hc, hm⟩
    exact ⟨c, hc, (get_char_class_eq_iff c).2.2.1.mpr hm⟩
  · rintro ⟨c, hc, he⟩
    exact ⟨c, hc, (get_char_class_eq_iff c).2.2.1.mp he⟩
  · rintro ⟨c, hc, hm⟩
    exact ⟨c, hc, (get_char_class_eq_iff c).2.2.2.mpr hm⟩
  · rintro ⟨c, hc, he⟩
    exact ⟨c, hc, (get_char_class_eq_iff c).2.2.2.mp he⟩

/-- A proposition equivalent to a boolean being true is decided by it. -/
theorem boolify (P : Prop) [Decidable P] (b : Bool) (h : P ↔ b = true) :
    b = decide P := by
  by_cases hp : P
  · simp [hp, h.mp hp]
  · cases hb : b
    · simp [hp]
    · exact absurd (h.mpr hb) hp

/-- count_classes counts the distinct class names other than "Unknown"
among the classifications of the password's characters. -/
theorem count_classes_eq_dedup (p : List Char) :
    count_classes p =
      ((p.map get_char_class).filter
        (fun n => decide (n ≠ "Unknown"))).dedup.length := by
  classical
  have key : ∀ (names : List String),
      (∀ n, n ∈ names ↔ n ∈ p.map get_char_class ∧ n ≠ "Unknown") →
      count_classes p = names.dedup.length := by
    intro names hmem
    have hsub : names.toFinset ⊆
        ({"Uppercase", "Lowercase", "Digits", "Special Chars"} :
          Finset String) := by
      intro n hn
      rw [List.mem_toFinset] at hn
      obtain ⟨hmap, hne⟩ := (hmem n).mp hn
      rw [List.mem_map] at hmap
      obtain ⟨c, -, rfl⟩ := hmap
      rcases get_char_class_range c with h | h | h | h | h <;>
        first
          | (rw [h]; decide)
          | exact absurd h hne
    have hfs : names.toFinset =
        Finset.filter (fun n => n ∈ names)
          ({"Uppercase", "Lowercase", "Digits", "Special Chars"} :
            Finset String) := by
      ext n
      rw [Finset.mem_filter, List.mem_toFinset]
      constructor
      · intro h
        exact ⟨hsub (List.mem_toFinset.mpr h), h⟩
      · exact fun h => h.2
    have hU : ("Uppercase" ∈ names) ↔
        (check_password_classes p).uppercase = true := by
      rw [hmem "Uppercase"]
      exact ⟨fun h => (check_classes_iff p).1.mpr h.1,
        fun h => ⟨(check_classes_iff p).1.mp h, by decide⟩⟩
    have hL : ("Lowercase" ∈ names) ↔
        (check_password_classes p).lowercase = true := by
      rw [hmem "Lowercase"]
      exact ⟨fun h => (check_classes_iff p).2.1.mpr h.1,
        fun h => ⟨(check_classes_iff p).2.1.mp h, by decide⟩⟩
    have hD : ("Digits" ∈ names) ↔
        (check_password_classes p).digits = true := by
      rw [hmem "Digits"]
      exact ⟨fun h => (check_classes_iff p).2.2.1.mpr h.1,
        fun h => ⟨(check_classes_iff p).2.2.1.mp h, by decide⟩⟩
    have hS : ("Special Chars" ∈ names) ↔
        (check_password_classes p).specialChars = true := by
      rw [hmem "Special Chars"]
      exact ⟨fun h => (check_classes_iff p).2.2.2.mpr h.1,
        fun h => ⟨(check_classes_iff p).2.2.2.mp h, by decide⟩⟩
    have bU := boolify _ _ hU
    have bL := boolify _ _ hL
    have bD := boolify _ _ hD
    have bS := boolify _ _ hS
    rw [← List.card_toFinset, hfs, Finset.card_filter,
      Finset.sum_insert (by decide), Finset.sum_insert (by decide),
      Finset.sum_insert (by decide), Finset.sum_singleton]
    unfold count_classes
    rw [bU, bL, bD, bS]
    by_cases pU : "Uppercase" ∈ names <;>
      by_cases pL : "Lowercase" ∈ names <;>
      by_cases pD : "Digits" ∈ names <;>
      by_cases pS : "Special Chars" ∈ names <;>
      simp [pU, pL, pD, pS]
  apply key
  intro n
  simp [List.mem_filter]

/-- Claim C10: the helpers are mutually coherent: count_classes counts the
distinct non-Unknown classifications of the password's characters,
check_password_classes marks a class true exactly when some character maps
to it under get_char_class, and on the concrete password "a" only Lowercase
is present and the count is 1. -/
theorem helpers_coherent :
    (∀ p : List Char,
      count_classes p =
        ((p.map get_char_class).filter
          (fun n => decide (n ≠ "Unknown"))).dedup.length ∧
      ((check_password_classes p).uppercase = true ↔
        ∃ c ∈ p, get_char_class c = "Uppercase") ∧
      ((check_password_classes p).lowercase = true ↔
        ∃ c ∈ p, get_char_class c = "Lowercase") ∧
      ((check_password_classes p).digits = true ↔
        ∃ c ∈ p, get_char_class c = "Digits") ∧
      ((check_password_classes p).specialChars = true ↔
        ∃ c ∈ p, get_char_class c = "Special Chars")) ∧
    check_password_classes ['a'] =
      { uppercase := false, lowercase := true, digits := false
      , specialChars := false } ∧
    count_classes ['a'] = 1 := by
  refine ⟨fun p => ⟨count_classes_eq_dedup p, ?_, ?_, ?_, ?_⟩, by decide, by decide⟩
  · exact (check_classes_iff p).1.trans (List.mem_map.trans (by tauto))
  · exact (check_classes_iff p).2.1.trans (List.mem_map.trans (by tauto))
  · exact (check_classes_iff p).2.2.1.trans (List.mem_map.trans (by tauto))
  · exact (check_classes_iff p).2.2.2.trans (List.mem_map.trans (by tauto))

/-- Witness for C10 at the concrete one-character password "a". -/
theorem helpers_coherent_witness :
    (check_password_classes ['a']).lowercase = true ↔
      ∃ c ∈ ['a'], get_char_class c = "Lowercase" :=
  (helpers_coherent.1 ['a']).2.2.1
